import Mathlib

/-!
Verification of the component-lookup core of the algtools MCP server
(`src/index.ts`): the stories.json fetcher (`fetchStoriesJson`), the two-phase
component resolver (`findMatchingComponent`), and the `algtoolsUI` tool handler
with its summary / match / not-found / error branches.

The TypeScript code is embedded shallowly:
- JS objects parsed from JSON become Lean structures; `Record<string, T>`
  mappings become association lists `List (String × T)` so that
  `Object.entries` / `Object.values` / `Object.keys` iteration order is the
  list order.
- Optional (possibly `undefined`) properties become `Option`; a
  `string | null` property collapses `null` and absence into `none`.
- JS string primitives (`toLowerCase`, `split`, `includes`) are modelled over
  the character list of a `String`; `toLowerCase` lowercases character by
  character (the components in stories.json are ASCII-titled).
- The single `fetch` is modelled by an explicit `HttpResponse` value carrying
  the HTTP status and the JSON-parse outcome of the body; a thrown JS error
  becomes the `Except.error` carrying the error message.
- `JSON.stringify(v, null, 2)` of the host runtime is modelled by a small JSON
  value type and a 2-space pretty-printer with the same field order as the
  TypeScript interfaces.
-/

namespace AlgtoolsMcp

/-! ## JS string primitives -/

/-- Model of JS `s.toLowerCase()` (per-character lowercasing). -/
def jsToLowerCase (s : String) : String := String.mk (s.data.map Char.toLower)

/-- Accumulator loop for `jsSplitChar`. -/
def splitOnCharAux (sep : Char) : List Char → List Char → List (List Char)
  | [], acc => [acc.reverse]
  | c :: cs, acc =>
      if c == sep then acc.reverse :: splitOnCharAux sep cs []
      else splitOnCharAux sep cs (c :: acc)

/-- Model of JS `s.split(sep)` for a one-character separator: the list of
separator-free segments, never empty (splitting `""` yields `[""]`). -/
def jsSplitChar (s : String) (sep : Char) : List String :=
  (splitOnCharAux sep s.data []).map String.mk

/-- Model of `titleLower.split("/").pop() || ""` in `findMatchingComponent`:
the last `/`-separated segment of the string (`pop` on the never-empty split
result; the `|| ""` default keeps an empty last segment empty). -/
def lastSegment (s : String) : String := (jsSplitChar s '/').getLastD ""

/-- `seqStartsWith pat l` holds when `pat` is an initial run of `l`. -/
def seqStartsWith : List Char → List Char → Bool
  | [], _ => true
  | _ :: _, [] => false
  | p :: ps, c :: cs => p == c && seqStartsWith ps cs

/-- Scan for `pat` starting at each suffix of the second list. -/
def seqContainsAux (pat : List Char) : List Char → Bool
  | [] => seqStartsWith pat []
  | c :: cs => seqStartsWith pat (c :: cs) || seqContainsAux pat cs

/-- Model of JS `s.includes(sub)`: `sub` occurs contiguously inside `s`
(the empty string is contained in every string, as in JS). -/
def jsIncludes (s sub : String) : Bool := seqContainsAux sub.data s.data

/-! ## Data model of stories.json (`src/index.ts` interfaces) -/

/-- `PropType`: one prop descriptor of a component. -/
structure PropType where
  description : Option String
  control : Option String
  options : Option (List String)
deriving DecidableEq

/-- The `componentInfo` object nested in a `StoryEntry`. -/
structure ComponentInfo where
  props : Option (List (String × PropType))
  description : Option String
deriving DecidableEq

/-- `StoryEntry`: one raw entry of the `entries` view (not consumed by the
lookup logic, carried for fidelity to `StoriesJsonData`). -/
structure StoryEntry where
  id : String
  title : String
  name : Option String
  importPath : Option String
  componentPath : Option String
  storiesImports : Option (List String)
  type : Option String
  tags : Option (List String)
  componentInfo : Option ComponentInfo
deriving DecidableEq

/-- `ComponentSummary`: one aggregated component record of the `components`
view of stories.json. -/
structure ComponentSummary where
  title : String
  componentPath : Option String
  importPath : Option String
  description : Option String
  props : Option (List (String × PropType))
  storyCount : Nat
  stories : List (String × String)
  storybookUrl : String
deriving DecidableEq

/-- `StoriesJsonData`: the parsed stories.json document. Both views are
optional, as in the TypeScript interface. -/
structure StoriesJsonData where
  entries : Option (List (String × StoryEntry))
  components : Option (List (String × ComponentSummary))
deriving DecidableEq

/-! ## JSON values and the host's `JSON.stringify(v, null, 2)` -/

/-- JSON value tree produced by the handler before serialization. -/
inductive Json where
  | str : String → Json
  | num : Nat → Json
  | bool : Bool → Json
  | null : Json
  | arr : List Json → Json
  | obj : List (String × Json) → Json

/-- `n` spaces of indentation. -/
def spacesStr (n : Nat) : String := String.mk (List.replicate n ' ')

/-- One lower-case hexadecimal digit. -/
def hexDigit (n : Nat) : Char :=
  if n < 10 then Char.ofNat (48 + n) else Char.ofNat (87 + n)

/-- JSON string escaping of one character, as `JSON.stringify` performs it. -/
def escapeJsonChar (c : Char) : String :=
  if c == '"' then "\\\""
  else if c == '\\' then "\\\\"
  else if c == '\n' then "\\n"
  else if c == '\t' then "\\t"
  else if c == '\r' then "\\r"
  else if c.toNat == 8 then "\\b"
  else if c.toNat == 12 then "\\f"
  else if c.toNat < 32 then
    "\\u00" ++ String.mk [hexDigit (c.toNat / 16), hexDigit (c.toNat % 16)]
  else String.singleton c

/-- A JSON string literal with quotes and escapes. -/
def jsonQuote (s : String) : String :=
  "\"" ++ String.join (s.data.map escapeJsonChar) ++ "\""

mutual

/-- Model of the host's `JSON.stringify(v, null, 2)` at indentation `ind`. -/
def renderJson (ind : Nat) : Json → String
  | .str s => jsonQuote s
  | .num n => toString n
  | .bool b => cond b "true" "false"
  | .null => "null"
  | .arr [] => "[]"
  | .arr (x :: xs) =>
      "[\n" ++ renderItems (ind + 2) (x :: xs) ++ "\n" ++ spacesStr ind ++ "]"
  | .obj [] => "\x7b\x7d"
  | .obj (f :: fs) =>
      "\x7b\n" ++ renderFields (ind + 2) (f :: fs) ++ "\n" ++ spacesStr ind ++ "\x7d"

/-- Comma-and-newline separated array items. -/
def renderItems (ind : Nat) : List Json → String
  | [] => ""
  | [x] => spacesStr ind ++ renderJson ind x
  | x :: y :: xs => spacesStr ind ++ renderJson ind x ++ ",\n" ++ renderItems ind (y :: xs)

/-- Comma-and-newline separated object fields. -/
def renderFields (ind : Nat) : List (String × Json) → String
  | [] => ""
  | [(k, v)] => spacesStr ind ++ jsonQuote k ++ ": " ++ renderJson ind v
  | (k, v) :: g :: fs =>
      spacesStr ind ++ jsonQuote k ++ ": " ++ renderJson ind v ++ ",\n" ++ renderFields ind (g :: fs)

end

/-- An absent JS property is dropped by `JSON.stringify`; a present one is a
single field. -/
def optField (name : String) (v : Option Json) : List (String × Json) :=
  match v with
  | none => []
  | some j => [(name, j)]

/-- Serialization view of a `PropType`, fields in interface order. -/
def propTypeToJson (p : PropType) : Json :=
  Json.obj (optField "description" (p.description.map Json.str)
    ++ optField "control" (p.control.map Json.str)
    ++ optField "options" (p.options.map (fun os => Json.arr (os.map Json.str))))

/-- Serialization view of a full `ComponentSummary`, fields in interface
order, `undefined` fields omitted — the argument of `JSON.stringify` in the
match branch of the `algtoolsUI` handler. -/
def componentToJson (c : ComponentSummary) : Json :=
  Json.obj ([("title", Json.str c.title)]
    ++ optField "componentPath" (c.componentPath.map Json.str)
    ++ optField "importPath" (c.importPath.map Json.str)
    ++ optField "description" (c.description.map Json.str)
    ++ optField "props" (c.props.map (fun ps =>
         Json.obj (ps.map (fun kv => (kv.1, propTypeToJson kv.2)))))
    ++ [("storyCount", Json.num c.storyCount),
        ("stories", Json.arr (c.stories.map (fun st =>
          Json.obj [("id", Json.str st.1), ("name", Json.str st.2)]))),
        ("storybookUrl", Json.str c.storybookUrl)])

/-! ## Fetcher (`fetchStoriesJson`) -/

instance {α β : Type} [DecidableEq α] [DecidableEq β] : DecidableEq (Except α β) := fun x y =>
  match x, y with
  | .error a, .error b => decidable_of_iff (a = b) (by simp)
  | .ok a, .ok b => decidable_of_iff (a = b) (by simp)
  | .error _, .ok _ => isFalse (by simp)
  | .ok _, .error _ => isFalse (by simp)

/-- The observable outcome of the single `fetch` of stories.json: the HTTP
status and the JSON-parse outcome of the body (`Except.error` models a thrown
transport/parse error with its message). -/
structure HttpResponse where
  status : Nat
  body : Except String StoriesJsonData
deriving DecidableEq

/-- `Response.ok` of the fetch API: status in the 2xx range. -/
def responseOk (r : HttpResponse) : Bool := decide (200 ≤ r.status ∧ r.status < 300)

/-- `fetchStoriesJson`: throws (returns `.error`) with a message carrying the
HTTP status when the response is not ok, otherwise yields the parse outcome of
`response.json()`. -/
def fetchStoriesJson (r : HttpResponse) : Except String StoriesJsonData :=
  if !(responseOk r) then
    Except.error ("Could not fetch stories.json. Status: " ++ toString r.status)
  else r.body

/-! ## Resolver (`findMatchingComponent`) -/

/-- Loop body of the exact phase of `findMatchingComponent`: the lower-cased
title, OR its category-stripped last segment, OR the lower-cased mapping key
equals the lower-cased requested name. -/
def exactMatch (componentNameLower : String) (kc : String × ComponentSummary) : Bool :=
  let titleLower := jsToLowerCase kc.2.title
  let titleWithoutCategory := lastSegment titleLower
  titleLower == componentNameLower
    || titleWithoutCategory == componentNameLower
    || jsToLowerCase kc.1 == componentNameLower

/-- Loop body of the partial phase of `findMatchingComponent`: the lower-cased
title OR its category-stripped last segment contains the lower-cased requested
name as a substring. -/
def partialMatch (componentNameLower : String) (component : ComponentSummary) : Bool :=
  let titleLower := jsToLowerCase component.title
  let titleWithoutCategory := lastSegment titleLower
  jsIncludes titleLower componentNameLower
    || jsIncludes titleWithoutCategory componentNameLower

/-- `findMatchingComponent`: `null` when the `components` view is absent;
otherwise the first exact match over `Object.entries`, and only if that loop
finds nothing, the first partial match over `Object.values`. -/
def findMatchingComponent (storiesData : StoriesJsonData) (componentName : String) :
    Option ComponentSummary :=
  match storiesData.components with
  | none => none
  | some comps =>
    match comps.find? (exactMatch (jsToLowerCase componentName)) with
    | some kc => some kc.2
    | none => (comps.map Prod.snd).find? (partialMatch (jsToLowerCase componentName))

/-! ## Summarizer and Responder (the `algtoolsUI` tool handler) -/

/-- One item of the tool-result content envelope. -/
structure ToolContent where
  type : String
  text : String
deriving DecidableEq

/-- The tool result returned to the RPC layer. -/
structure ToolResult where
  content : List ToolContent
deriving DecidableEq

/-- The single-item `\x7btype: "text", text\x7d` envelope every branch of the
handler produces. -/
def textResult (s : String) : ToolResult :=
  { content := [{ type := "text", text := s }] }

/-- The compact per-component listing view built by the summary branch. -/
structure ComponentSummaryView where
  title : String
  storyCount : Nat
  hasProps : Bool
  componentPath : Option String
  storybookUrl : String
deriving DecidableEq

/-- Projection of one mapping entry to its summary view;
`hasProps` is `Object.keys(component.props || \x7b\x7d).length > 0`. -/
def summaryView (kc : String × ComponentSummary) : ComponentSummaryView :=
  { title := kc.2.title
    storyCount := kc.2.storyCount
    hasProps := decide (0 < ((kc.2.props.getD []).map Prod.fst).length)
    componentPath := kc.2.componentPath
    storybookUrl := kc.2.storybookUrl }

/-- `componentsSummary` of the handler: map every entry of
`Object.entries(storiesData.components || \x7b\x7d)` to its view. -/
def componentsSummary (storiesData : StoriesJsonData) : List ComponentSummaryView :=
  (storiesData.components.getD []).map summaryView

/-- Serialization view of a summary item, key order as in the object literal
of the handler (`componentPath` omitted when `undefined`). -/
def summaryViewToJson (v : ComponentSummaryView) : Json :=
  Json.obj ([("title", Json.str v.title),
             ("storyCount", Json.num v.storyCount),
             ("hasProps", Json.bool v.hasProps)]
    ++ optField "componentPath" (v.componentPath.map Json.str)
    ++ [("storybookUrl", Json.str v.storybookUrl)])

/-- The fixed guidance note of the summary response. -/
def noteText : String :=
  "Use the \x27componentName\x27 parameter to get detailed information about a specific component, including its props, available stories, and usage examples."

/-- The summary-branch response object
`\x7btotalComponents, components, note\x7d`. -/
def summaryJson (storiesData : StoriesJsonData) : Json :=
  Json.obj [("totalComponents", Json.num (componentsSummary storiesData).length),
            ("components", Json.arr ((componentsSummary storiesData).map summaryViewToJson)),
            ("note", Json.str noteText)]

/-- The not-found message: quoted name, comma-joined first 20 titles of
`Object.values(storiesData.components || \x7b\x7d)`, and the
`... (N total)` tail exactly when the total count exceeds 20. -/
def notFoundText (storiesData : StoriesJsonData) (componentName : String) : String :=
  let componentNames :=
    String.intercalate ", "
      (((storiesData.components.getD []).map (fun kc => kc.2.title)).take 20)
  let totalCount := (storiesData.components.getD []).length
  let moreCount := if totalCount > 20 then "... (" ++ toString totalCount ++ " total)" else ""
  "Component \"" ++ componentName ++ "\" not found. Available components: "
    ++ componentNames ++ moreCount

/-- The catch-branch message wrapping a fetch failure. -/
def errorText (msg : String) : String :=
  "Error: Failed to fetch component information from stories.json. " ++ msg
    ++ ". Please check if the stories.json is accessible at https://algtools.github.io/ui/stories.json"

/-- The `algtoolsUI` tool handler: fetch, then branch on the requested name.
`if (componentName)` in JS tests truthiness, so both an absent name and the
empty string take the summary branch. Every branch wraps its payload in the
single-item text envelope. -/
def algtoolsUI (resp : HttpResponse) (componentName : Option String) : ToolResult :=
  match fetchStoriesJson resp with
  | .error msg => textResult (errorText msg)
  | .ok storiesData =>
    match componentName with
    | some name =>
      if name == "" then textResult (renderJson 0 (summaryJson storiesData))
      else
        match findMatchingComponent storiesData name with
        | none => textResult (notFoundText storiesData name)
        | some c => textResult (renderJson 0 (componentToJson c))
    | none => textResult (renderJson 0 (summaryJson storiesData))

/-! ## Derived notions used to state the claims -/

/-- The identity data the resolver reads from one mapping entry: the key and
the title. -/
def keyTitle (kc : String × ComponentSummary) : String × String := (kc.1, kc.2.title)

/-- `exactMatch` expressed on a bare (key, title) pair. -/
def exactMatchKT (componentNameLower : String) (kt : String × String) : Bool :=
  let titleLower := jsToLowerCase kt.2
  let titleWithoutCategory := lastSegment titleLower
  titleLower == componentNameLower
    || titleWithoutCategory == componentNameLower
    || jsToLowerCase kt.1 == componentNameLower

/-- `partialMatch` expressed on a bare title. -/
def partialMatchT (componentNameLower : String) (title : String) : Bool :=
  let titleLower := jsToLowerCase title
  let titleWithoutCategory := lastSegment titleLower
  jsIncludes titleLower componentNameLower
    || jsIncludes titleWithoutCategory componentNameLower

/-- Index of the first list element satisfying `p`. -/
def firstIdx (p : α → Bool) : List α → Option Nat
  | [] => none
  | a :: l => if p a then some 0 else (firstIdx p l).map (· + 1)

/-- The position (in mapping iteration order) of the record the resolver
selects: the first exact-phase hit, else the first partial-phase hit. -/
def resolveIdx (comps : List (String × ComponentSummary)) (componentNameLower : String) :
    Option Nat :=
  match firstIdx (exactMatch componentNameLower) comps with
  | some i => some i
  | none => firstIdx (partialMatch componentNameLower) (comps.map Prod.snd)

/-! ## Concrete data used by witnesses and counterexamples -/

/-- A minimal component record with the given title. -/
def mkComp (t : String) : ComponentSummary :=
  { title := t, componentPath := none, importPath := none, description := none,
    props := none, storyCount := 0, stories := [], storybookUrl := "" }

/-- The one-record dataset of spec Scenario A/B/C. -/
def buttonComp : ComponentSummary :=
  { title := "Forms/Button"
    componentPath := some "src/components/Button.tsx"
    importPath := none
    description := none
    props := some [("variant",
      { description := none, control := some "select", options := some ["primary", "ghost"] })]
    storyCount := 3
    stories := [("forms-button--primary", "Primary")]
    storybookUrl := "https://algtools.github.io/ui/?path=/docs/forms-button" }

/-- Dataset with the single Button record. -/
def buttonData : StoriesJsonData :=
  { entries := none, components := some [("forms-button", buttonComp)] }

/-- A successful fetch of `buttonData`. -/
def buttonResp : HttpResponse := { status := 200, body := Except.ok buttonData }

/-- Twenty-one single-letter records, to cross the 20-title preview cap. -/
def bigComps : List (String × ComponentSummary) :=
  (["A", "B", "C", "D", "E", "F", "G", "H", "I", "J", "K", "L", "M", "N", "O",
    "P", "Q", "R", "S", "T", "U"]).map (fun t => (t, mkComp t))

/-- Dataset with the 21 records of `bigComps`. -/
def bigData : StoriesJsonData := { entries := none, components := some bigComps }

/-- A successful fetch of `bigData`. -/
def bigResp : HttpResponse := { status := 200, body := Except.ok bigData }

/-- The not-found message head for name "xyz" against `bigData`, up to and
including the twentieth previewed title. -/
def bigBaseText : String :=
  "Component \"xyz\" not found. Available components: A, B, C, D, E, F, G, H, I, J, K, L, M, N, O, P, Q, R, S, T"

/-- The empty dataset (components view absent). -/
def emptyData : StoriesJsonData := { entries := none, components := none }

/-- A successful fetch of `emptyData`. -/
def emptyResp : HttpResponse := { status := 200, body := Except.ok emptyData }

end AlgtoolsMcp

namespace AlgtoolsMcp

/-! ## Helper lemmas -/

/-- `List.find?` returns the first satisfying element: the list splits at the
hit, and everything before it fails the predicate. -/
theorem find?_first_split {α : Type} (p : α → Bool) :
    ∀ (l : List α) (x : α), l.find? p = some x →
      ∃ pre post, l = pre ++ x :: post ∧ p x = true ∧ ∀ y ∈ pre, p y = false := by
  intro l
  induction l with
  | nil => intro x h; simp [List.find?] at h
  | cons a t ih =>
    intro x h
    by_cases hp : p a = true
    · rw [List.find?_cons_of_pos _ hp] at h
      obtain rfl : a = x := by injection h
      exact ⟨[], t, by simp, hp, by simp⟩
    · rw [List.find?_cons_of_neg _ hp] at h
      obtain ⟨pre, post, rfl, hx, hpre⟩ := ih x h
      refine ⟨a :: pre, post, by simp, hx, ?_⟩
      intro y hy
      rcases List.mem_cons.mp hy with rfl | hy2
      · exact (Bool.not_eq_true _).mp hp
      · exact hpre y hy2

/-- `firstIdx` over a mapped list tests the composed predicate. -/
theorem firstIdx_map {α β : Type} (p : β → Bool) (f : α → β) :
    ∀ l : List α, firstIdx p (l.map f) = firstIdx (fun x => p (f x)) l := by
  intro l
  induction l with
  | nil => rfl
  | cons a t ih => by_cases h : p (f a) <;> simp [firstIdx, h, ih]

/-- A `firstIdx` hit is a valid position holding a satisfying element. -/
theorem firstIdx_getElem? {α : Type} (p : α → Bool) :
    ∀ (l : List α) (i : Nat), firstIdx p l = some i → ∃ x, l[i]? = some x ∧ p x = true := by
  intro l
  induction l with
  | nil => intro i h; simp [firstIdx] at h
  | cons a t ih =>
    intro i h
    by_cases hp : p a = true
    · simp [firstIdx, hp] at h
      exact h ▸ ⟨a, by simp, hp⟩
    · have hb : p a = false := (Bool.not_eq_true _).mp hp
      simp [firstIdx, hb] at h
      obtain ⟨j, hj, rfl⟩ := h
      obtain ⟨x, hx, hpx⟩ := ih j hj
      exact ⟨x, by simpa [List.getElem?_cons_succ] using hx, hpx⟩

/-- `List.find?` is the element at the `firstIdx` position. -/
theorem find?_eq_firstIdx {α : Type} (p : α → Bool) :
    ∀ l : List α, l.find? p = (firstIdx p l).bind (fun i => l[i]?) := by
  intro l
  induction l with
  | nil => rfl
  | cons a t ih =>
    by_cases hp : p a = true
    · simp [List.find?_cons_of_pos _ hp, firstIdx, hp]
    · have hb : p a = false := (Bool.not_eq_true _).mp hp
      rw [List.find?_cons_of_neg _ hp, ih]
      simp only [firstIdx, hb, Bool.false_eq_true, if_false]
      cases firstIdx p t <;> simp [List.getElem?_cons_succ]

/-- A pattern that starts a list is found by the scan. -/
theorem seqContainsAux_here (p l : List Char) (h : seqStartsWith p l = true) :
    seqContainsAux p l = true := by
  cases l with
  | nil => simpa [seqContainsAux] using h
  | cons c cs => simp [seqContainsAux, h]

/-- Every list starts with itself. -/
theorem seqStartsWith_append (p t : List Char) : seqStartsWith p (p ++ t) = true := by
  induction p with
  | nil => rfl
  | cons c cs ih => simp [seqStartsWith, ih]

/-- The scan finds a pattern spliced into the middle of a list. -/
theorem seqContainsAux_append (a p b : List Char) :
    seqContainsAux p (a ++ (p ++ b)) = true := by
  induction a with
  | nil => exact seqContainsAux_here p (p ++ b) (seqStartsWith_append p b)
  | cons c cs ih => simp [seqContainsAux, ih]

/-- The empty pattern is contained in every list, as with JS `includes`. -/
theorem seqContainsAux_nil_pat (l : List Char) : seqContainsAux [] l = true := by
  cases l <;> rfl

/-- `jsIncludes` finds a middle factor of a concatenation. -/
theorem jsIncludes_mid (a b c d : String) : jsIncludes (a ++ (b ++ c) ++ d) c = true := by
  have he : (a ++ (b ++ c) ++ d).data = (a.data ++ b.data) ++ (c.data ++ d.data) := by
    simp [String.data_append, List.append_assoc]
  simp only [jsIncludes, he]
  exact seqContainsAux_append (a.data ++ b.data) c.data d.data

/-- Every branch of the handler wraps its payload in the single-item text
envelope. -/
theorem algtoolsUI_shape (r : HttpResponse) (m : Option String) :
    ∃ s, algtoolsUI r m = textResult s := by
  unfold algtoolsUI
  cases fetchStoriesJson r with
  | error e => exact ⟨errorText e, rfl⟩
  | ok d =>
    cases m with
    | none => exact ⟨_, rfl⟩
    | some name =>
      by_cases h : (name == "") = true
      · simp only [h, if_true]
        exact ⟨_, rfl⟩
      · simp only [h, if_false]
        cases findMatchingComponent d name with
        | none => exact ⟨_, rfl⟩
        | some c => exact ⟨_, rfl⟩

/-- The resolver's result is the second component of the record at the
position `resolveIdx` selects. -/
theorem findMatchingComponent_eq_resolveIdx (d : StoriesJsonData)
    (comps : List (String × ComponentSummary)) (name : String)
    (hc : d.components = some comps) :
    findMatchingComponent d name
      = (resolveIdx comps (jsToLowerCase name)).bind (fun i => comps[i]?.map Prod.snd) := by
  have hmain : findMatchingComponent d name
      = match comps.find? (exactMatch (jsToLowerCase name)) with
        | some kc => some kc.2
        | none => (comps.map Prod.snd).find? (partialMatch (jsToLowerCase name)) := by
    unfold findMatchingComponent
    rw [hc]
  rw [hmain, resolveIdx, find?_eq_firstIdx, find?_eq_firstIdx]
  cases hfe : firstIdx (exactMatch (jsToLowerCase name)) comps with
  | some i =>
    obtain ⟨x, hx, hpx⟩ := firstIdx_getElem? _ comps i hfe
    simp [hx]
  | none =>
    cases firstIdx (partialMatch (jsToLowerCase name)) (comps.map Prod.snd) with
    | none => rfl
    | some j => simp [List.getElem?_map]

end AlgtoolsMcp
namespace AlgtoolsMcp

/-- Unfolding of the resolver once the components mapping is known. -/
theorem findMatchingComponent_components (d : StoriesJsonData)
    (comps : List (String × ComponentSummary)) (name : String)
    (hc : d.components = some comps) :
    findMatchingComponent d name
      = match comps.find? (exactMatch (jsToLowerCase name)) with
        | some kc => some kc.2
        | none => (comps.map Prod.snd).find? (partialMatch (jsToLowerCase name)) := by
  unfold findMatchingComponent
  rw [hc]

/-! ## Claims -/

/-- C1: if the lower-cased requested name equals some record's lower-cased
title, or that title's category-stripped last segment, or the record's
lower-cased mapping key (the three exact identity forms, captured by
`exactMatch`), then `findMatchingComponent` returns the component of a record
satisfying one of those forms, namely the first such record in the mapping's
iteration order. -/
theorem c1_exact_first_in_order (d : StoriesJsonData)
    (comps : List (String × ComponentSummary)) (name : String)
    (hc : d.components = some comps)
    (hex : ∃ kc ∈ comps, exactMatch (jsToLowerCase name) kc = true) :
    ∃ pre kc post, comps = pre ++ kc :: post
      ∧ exactMatch (jsToLowerCase name) kc = true
      ∧ (∀ kc2 ∈ pre, exactMatch (jsToLowerCase name) kc2 = false)
      ∧ findMatchingComponent d name = some kc.2 := by
  have hsome : (comps.find? (exactMatch (jsToLowerCase name))).isSome :=
    List.find?_isSome.mpr hex
  obtain ⟨kc, hkc⟩ := Option.isSome_iff_exists.mp hsome
  obtain ⟨pre, post, heq2, hx, hpre⟩ := find?_first_split _ comps kc hkc
  refine ⟨pre, kc, post, heq2, hx, hpre, ?_⟩
  rw [findMatchingComponent_components d comps name hc, hkc]

/-- C1 witness: spec Scenario A — "button" exact-matches the category-stripped
title of the "Forms/Button" record. -/
theorem c1_exact_first_in_order_witness :
    ∃ pre kc post, [("forms-button", buttonComp)] = pre ++ kc :: post
      ∧ exactMatch (jsToLowerCase "button") kc = true
      ∧ (∀ kc2 ∈ pre, exactMatch (jsToLowerCase "button") kc2 = false)
      ∧ findMatchingComponent buttonData "button" = some kc.2 :=
  c1_exact_first_in_order buttonData [("forms-button", buttonComp)] "button" rfl (by decide)

/-- C2: with a components mapping present, (a) whenever some record satisfies
an exact identity form the resolver's result is such a record — a partial
match in an earlier record never shadows an exact match in a later one — and
(b) when no record exact-matches but some record partially matches, the
resolver returns the first partially matching record in iteration order. -/
theorem c2_partial_phase_after_exact (d : StoriesJsonData)
    (comps : List (String × ComponentSummary)) (name : String)
    (hc : d.components = some comps) :
    ((∃ kc ∈ comps, exactMatch (jsToLowerCase name) kc = true) →
      ∃ kc ∈ comps, exactMatch (jsToLowerCase name) kc = true
        ∧ findMatchingComponent d name = some kc.2)
    ∧ ((∀ kc ∈ comps, exactMatch (jsToLowerCase name) kc = false) →
      (∃ c ∈ comps.map Prod.snd, partialMatch (jsToLowerCase name) c = true) →
      ∃ pre c post, comps.map Prod.snd = pre ++ c :: post
        ∧ partialMatch (jsToLowerCase name) c = true
        ∧ (∀ c2 ∈ pre, partialMatch (jsToLowerCase name) c2 = false)
        ∧ findMatchingComponent d name = some c) := by
  constructor
  · intro hex
    have hsome : (comps.find? (exactMatch (jsToLowerCase name))).isSome :=
      List.find?_isSome.mpr hex
    obtain ⟨kc, hkc⟩ := Option.isSome_iff_exists.mp hsome
    refine ⟨kc, List.mem_of_find?_eq_some hkc, List.find?_some hkc, ?_⟩
    rw [findMatchingComponent_components d comps name hc, hkc]
  · intro hnoex hpart
    have hnone : comps.find? (exactMatch (jsToLowerCase name)) = none :=
      List.find?_eq_none.mpr (fun kc hkc => by simp [hnoex kc hkc])
    have hsome : ((comps.map Prod.snd).find? (partialMatch (jsToLowerCase name))).isSome :=
      List.find?_isSome.mpr hpart
    obtain ⟨c, hcfind⟩ := Option.isSome_iff_exists.mp hsome
    obtain ⟨pre, post, heq2, hx, hpre⟩ := find?_first_split _ (comps.map Prod.snd) c hcfind
    refine ⟨pre, c, post, heq2, hx, hpre, ?_⟩
    rw [findMatchingComponent_components d comps name hc, hnone, hcfind]

/-- C2 witness: spec Scenario B — "but" matches no exact identity form of the
one-record dataset, so the partial phase returns the Button record. -/
theorem c2_partial_phase_after_exact_witness :
    ((∃ kc ∈ [("forms-button", buttonComp)], exactMatch (jsToLowerCase "but") kc = true) →
      ∃ kc ∈ [("forms-button", buttonComp)], exactMatch (jsToLowerCase "but") kc = true
        ∧ findMatchingComponent buttonData "but" = some kc.2)
    ∧ ((∀ kc ∈ [("forms-button", buttonComp)], exactMatch (jsToLowerCase "but") kc = false) →
      (∃ c ∈ [("forms-button", buttonComp)].map Prod.snd,
          partialMatch (jsToLowerCase "but") c = true) →
      ∃ pre c post, [("forms-button", buttonComp)].map Prod.snd = pre ++ c :: post
        ∧ partialMatch (jsToLowerCase "but") c = true
        ∧ (∀ c2 ∈ pre, partialMatch (jsToLowerCase "but") c2 = false)
        ∧ findMatchingComponent buttonData "but" = some c) :=
  c2_partial_phase_after_exact buttonData [("forms-button", buttonComp)] "but" rfl

/-- C3 counterexample: for a 21-record dataset and the unmatched name "xyz",
the handler appends `... (21 total)` directly after the twentieth previewed
title, not the comma-space-separated suffix `, ... (21 total)` the claim
quotes. -/
theorem c3_counterexample :
    algtoolsUI bigResp (some "xyz") = textResult (bigBaseText ++ "... (21 total)")
    ∧ algtoolsUI bigResp (some "xyz") ≠ textResult (bigBaseText ++ ", ... (21 total)") := by
  constructor
  · decide
  · decide

/-- C3 (amended): for every dataset and non-empty name on which the resolver
fails, the response is the not-found text: the quoted name, then the
comma-joined first 20 titles in iteration order, then — appended with no
separator — `... (T total)` exactly when the total count T exceeds 20; the
preview is capped at 20 titles (its length is `min 20 T`) and T is the full
mapping size. -/
theorem c3_not_found_message (resp : HttpResponse) (d : StoriesJsonData) (name : String)
    (hok : fetchStoriesJson resp = Except.ok d) (hne : name ≠ "")
    (hmiss : findMatchingComponent d name = none) :
    algtoolsUI resp (some name) = textResult (notFoundText d name)
    ∧ notFoundText d name =
        "Component \"" ++ name ++ "\" not found. Available components: "
          ++ String.intercalate ", " (((d.components.getD []).map (fun kc => kc.2.title)).take 20)
          ++ (if (d.components.getD []).length > 20
              then "... (" ++ toString (d.components.getD []).length ++ " total)" else "")
    ∧ (((d.components.getD []).map (fun kc => kc.2.title)).take 20).length
        = min 20 (d.components.getD []).length := by
  have hb : (name == "") = false := beq_eq_false_iff_ne.mpr hne
  refine ⟨?_, rfl, by simp [List.length_take]⟩
  unfold algtoolsUI
  rw [hok]
  simp [hb, hmiss]

/-- C3 witness: the 21-record dataset with the unmatched name "xyz". -/
theorem c3_not_found_message_witness :
    algtoolsUI bigResp (some "xyz") = textResult (notFoundText bigData "xyz")
    ∧ notFoundText bigData "xyz" =
        "Component \"" ++ "xyz" ++ "\" not found. Available components: "
          ++ String.intercalate ", "
              (((bigData.components.getD []).map (fun kc => kc.2.title)).take 20)
          ++ (if (bigData.components.getD []).length > 20
              then "... (" ++ toString (bigData.components.getD []).length ++ " total)" else "")
    ∧ (((bigData.components.getD []).map (fun kc => kc.2.title)).take 20).length
        = min 20 (bigData.components.getD []).length :=
  c3_not_found_message bigResp bigData "xyz" (by decide) (by decide) (by decide)

/-- C4: when no name is supplied the response is the serialized summary object
with totalComponents, the per-record views, and the fixed note; the summary is
the pure per-entry projection in iteration order with no filtering (its length
equals the number of mapping entries), each view carrying exactly title,
storyCount, hasProps, componentPath and storybookUrl, with hasProps true iff
the record's prop mapping is non-empty. -/
theorem c4_summary_branch (resp : HttpResponse) (d : StoriesJsonData)
    (hok : fetchStoriesJson resp = Except.ok d) :
    algtoolsUI resp none = textResult (renderJson 0 (summaryJson d))
    ∧ summaryJson d = Json.obj
        [("totalComponents", Json.num (componentsSummary d).length),
         ("components", Json.arr ((componentsSummary d).map summaryViewToJson)),
         ("note", Json.str noteText)]
    ∧ componentsSummary d = (d.components.getD []).map summaryView
    ∧ (componentsSummary d).length = (d.components.getD []).length
    ∧ ∀ kc : String × ComponentSummary,
        (summaryView kc).title = kc.2.title
        ∧ (summaryView kc).storyCount = kc.2.storyCount
        ∧ (summaryView kc).componentPath = kc.2.componentPath
        ∧ (summaryView kc).storybookUrl = kc.2.storybookUrl
        ∧ ((summaryView kc).hasProps = true ↔ kc.2.props.getD [] ≠ []) := by
  refine ⟨?_, rfl, rfl, by simp [componentsSummary], ?_⟩
  · unfold algtoolsUI
    rw [hok]
  · intro kc
    refine ⟨rfl, rfl, rfl, rfl, ?_⟩
    simp [summaryView, List.length_pos]

/-- C4 witness: the summary branch on the one-record Button dataset. -/
theorem c4_summary_branch_witness :
    algtoolsUI buttonResp none = textResult (renderJson 0 (summaryJson buttonData))
    ∧ summaryJson buttonData = Json.obj
        [("totalComponents", Json.num (componentsSummary buttonData).length),
         ("components", Json.arr ((componentsSummary buttonData).map summaryViewToJson)),
         ("note", Json.str noteText)]
    ∧ componentsSummary buttonData = (buttonData.components.getD []).map summaryView
    ∧ (componentsSummary buttonData).length = (buttonData.components.getD []).length
    ∧ ∀ kc : String × ComponentSummary,
        (summaryView kc).title = kc.2.title
        ∧ (summaryView kc).storyCount = kc.2.storyCount
        ∧ (summaryView kc).componentPath = kc.2.componentPath
        ∧ (summaryView kc).storybookUrl = kc.2.storybookUrl
        ∧ ((summaryView kc).hasProps = true ↔ kc.2.props.getD [] ≠ []) :=
  c4_summary_branch buttonResp buttonData (by decide)

/-- C5: on every non-2xx status the fetcher fails with the message carrying
the status code; the handler converts every fetch failure (bad status, or a
thrown transport/parse error message) into the single text message embedding
the failure description and the reachability hint, never propagating it; and
that message contains the decimal status digits as a substring. -/
theorem c5_error_handling (s : Nat) (b : Except String StoriesJsonData) (n : Option String)
    (hbad : ¬(200 ≤ s ∧ s < 300)) :
    fetchStoriesJson { status := s, body := b }
        = Except.error ("Could not fetch stories.json. Status: " ++ toString s)
    ∧ (∀ (resp : HttpResponse) (msg : String), fetchStoriesJson resp = Except.error msg →
        algtoolsUI resp n = textResult (errorText msg))
    ∧ algtoolsUI { status := s, body := b } n
        = textResult (errorText ("Could not fetch stories.json. Status: " ++ toString s))
    ∧ jsIncludes (errorText ("Could not fetch stories.json. Status: " ++ toString s))
        (toString s) = true := by
  have hro : responseOk { status := s, body := b } = false := by
    simp only [responseOk, decide_eq_false_iff_not]
    exact hbad
  have h1 : fetchStoriesJson { status := s, body := b }
      = Except.error ("Could not fetch stories.json. Status: " ++ toString s) := by
    unfold fetchStoriesJson
    rw [hro]
    rfl
  have h2 : ∀ (resp : HttpResponse) (msg : String), fetchStoriesJson resp = Except.error msg →
      algtoolsUI resp n = textResult (errorText msg) := by
    intro resp msg h
    unfold algtoolsUI
    rw [h]
  refine ⟨h1, h2, h2 _ _ h1, ?_⟩
  exact jsIncludes_mid "Error: Failed to fetch component information from stories.json. "
    "Could not fetch stories.json. Status: " (toString s)
    ". Please check if the stories.json is accessible at https://algtools.github.io/ui/stories.json"

/-- C5 witness: spec Scenario E — HTTP 500 yields the wrapped error text
containing "500". -/
theorem c5_error_handling_witness :
    fetchStoriesJson { status := 500, body := Except.error "network failure" }
        = Except.error ("Could not fetch stories.json. Status: " ++ toString 500)
    ∧ (∀ (resp : HttpResponse) (msg : String), fetchStoriesJson resp = Except.error msg →
        algtoolsUI resp (some "Button") = textResult (errorText msg))
    ∧ algtoolsUI { status := 500, body := Except.error "network failure" } (some "Button")
        = textResult (errorText ("Could not fetch stories.json. Status: " ++ toString 500))
    ∧ jsIncludes (errorText ("Could not fetch stories.json. Status: " ++ toString 500))
        (toString 500) = true :=
  c5_error_handling 500 (Except.error "network failure") (some "Button") (by decide)

end AlgtoolsMcp
namespace AlgtoolsMcp

/-- C6: on a resolver hit the match branch returns exactly the pretty-printed
serialization of the full matched record, unaltered; and every handler output
on every branch is the single-item content envelope of kind "text" holding the
message or serialization string. -/
theorem c6_match_verbatim_and_envelope (resp : HttpResponse) (d : StoriesJsonData)
    (name : String) (c : ComponentSummary)
    (hok : fetchStoriesJson resp = Except.ok d) (hne : name ≠ "")
    (hfind : findMatchingComponent d name = some c) :
    algtoolsUI resp (some name) = textResult (renderJson 0 (componentToJson c))
    ∧ ∀ (r : HttpResponse) (m : Option String), ∃ s,
        algtoolsUI r m = textResult s
        ∧ (algtoolsUI r m).content = [{ type := "text", text := s }] := by
  have hb : (name == "") = false := beq_eq_false_iff_ne.mpr hne
  constructor
  · unfold algtoolsUI
    rw [hok]
    simp [hb, hfind]
  · intro r m
    obtain ⟨s, hs⟩ := algtoolsUI_shape r m
    exact ⟨s, hs, by rw [hs]; rfl⟩

/-- C6 witness: the "button" lookup returns the serialized Button record. -/
theorem c6_match_verbatim_and_envelope_witness :
    algtoolsUI buttonResp (some "button")
        = textResult (renderJson 0 (componentToJson buttonComp))
    ∧ ∀ (r : HttpResponse) (m : Option String), ∃ s,
        algtoolsUI r m = textResult s
        ∧ (algtoolsUI r m).content = [{ type := "text", text := s }] :=
  c6_match_verbatim_and_envelope buttonResp buttonData "button" buttonComp
    (by decide) (by decide) (by decide)

/-- C7: the lookup pipeline is a pure function of the fetch outcome and the
optional name: two invocations on the same inputs produce identical results,
for the full handler, the resolver, and the summarizer alike. -/
theorem c7_deterministic (r1 r2 : HttpResponse) (n1 n2 : Option String)
    (d1 d2 : StoriesJsonData) (s1 s2 : String)
    (hr : r1 = r2) (hn : n1 = n2) (hd : d1 = d2) (hs : s1 = s2) :
    algtoolsUI r1 n1 = algtoolsUI r2 n2
    ∧ findMatchingComponent d1 s1 = findMatchingComponent d2 s2
    ∧ componentsSummary d1 = componentsSummary d2 := by
  subst hr
  subst hn
  subst hd
  subst hs
  exact ⟨rfl, rfl, rfl⟩

/-- C7 witness: two identical "button" calls coincide. -/
theorem c7_deterministic_witness :
    algtoolsUI buttonResp (some "button") = algtoolsUI buttonResp (some "button")
    ∧ findMatchingComponent buttonData "button" = findMatchingComponent buttonData "button"
    ∧ componentsSummary buttonData = componentsSummary buttonData :=
  c7_deterministic buttonResp buttonResp (some "button") (some "button")
    buttonData buttonData "button" "button" rfl rfl rfl rfl

/-- C8: the empty-string name is falsy under the JS truthiness test guarding
the lookup, so it takes the summary branch exactly like an absent name — even
though the empty string would partially match every record's title. -/
theorem c8_empty_name_is_summary (r : HttpResponse) (c : ComponentSummary) :
    algtoolsUI r (some "") = algtoolsUI r none
    ∧ partialMatch (jsToLowerCase "") c = true := by
  constructor
  · unfold algtoolsUI
    cases fetchStoriesJson r <;> rfl
  · have h := seqContainsAux_nil_pat (jsToLowerCase c.title).data
    simp only [partialMatch, jsIncludes]
    rw [show (jsToLowerCase "").data = [] from rfl]
    simp [seqContainsAux_nil_pat]

/-- C9: a missing or empty components mapping leaves every operation total:
the resolver finds nothing for any name, the not-found message has an empty
preview and no total suffix, and the summary reports zero components with an
empty list. -/
theorem c9_degenerate_dataset (resp : HttpResponse) (d : StoriesJsonData) (name : String)
    (hok : fetchStoriesJson resp = Except.ok d) (hne : name ≠ "")
    (hempty : d.components = none ∨ d.components = some []) :
    findMatchingComponent d name = none
    ∧ algtoolsUI resp (some name)
        = textResult ("Component \"" ++ name ++ "\" not found. Available components: ")
    ∧ algtoolsUI resp none
        = textResult (renderJson 0 (Json.obj
            [("totalComponents", Json.num 0),
             ("components", Json.arr []),
             ("note", Json.str noteText)])) := by
  have hb : (name == "") = false := beq_eq_false_iff_ne.mpr hne
  have hfind : findMatchingComponent d name = none := by
    rcases hempty with h | h <;> simp [findMatchingComponent, h]
  refine ⟨hfind, ?_, ?_⟩
  · unfold algtoolsUI
    rw [hok]
    simp only [hb, Bool.false_eq_true, if_false, hfind]
    rcases hempty with h | h <;> simp [notFoundText, h, String.intercalate]
  · unfold algtoolsUI
    rw [hok]
    rcases hempty with h | h <;> simp [summaryJson, componentsSummary, h]

/-- C9 witness: the dataset whose components view is absent. -/
theorem c9_degenerate_dataset_witness :
    findMatchingComponent emptyData "Checkbox" = none
    ∧ algtoolsUI emptyResp (some "Checkbox")
        = textResult ("Component \"" ++ "Checkbox" ++ "\" not found. Available components: ")
    ∧ algtoolsUI emptyResp none
        = textResult (renderJson 0 (Json.obj
            [("totalComponents", Json.num 0),
             ("components", Json.arr []),
             ("note", Json.str noteText)])) :=
  c9_degenerate_dataset emptyResp emptyData "Checkbox" (by decide) (by decide) (Or.inl rfl)

/-- C10: the resolver's selection depends only on the positional sequence of
mapping keys and record titles: two datasets whose component mappings agree
position-by-position on `keyTitle` resolve every name at the same position
(`resolveIdx`), or both fail; and each resolver result is exactly the record
at that shared position. -/
theorem c10_depends_on_keys_titles (dA dB : StoriesJsonData)
    (compsA compsB : List (String × ComponentSummary)) (name : String)
    (hA : dA.components = some compsA) (hB : dB.components = some compsB)
    (heq : compsA.map keyTitle = compsB.map keyTitle) :
    resolveIdx compsA (jsToLowerCase name) = resolveIdx compsB (jsToLowerCase name)
    ∧ findMatchingComponent dA name
        = (resolveIdx compsA (jsToLowerCase name)).bind (fun i => compsA[i]?.map Prod.snd)
    ∧ findMatchingComponent dB name
        = (resolveIdx compsB (jsToLowerCase name)).bind (fun i => compsB[i]?.map Prod.snd) := by
  have hexEq : firstIdx (exactMatch (jsToLowerCase name)) compsA
      = firstIdx (exactMatch (jsToLowerCase name)) compsB := by
    calc firstIdx (exactMatch (jsToLowerCase name)) compsA
        = firstIdx (exactMatchKT (jsToLowerCase name)) (compsA.map keyTitle) :=
          (firstIdx_map (exactMatchKT (jsToLowerCase name)) keyTitle compsA).symm
      _ = firstIdx (exactMatchKT (jsToLowerCase name)) (compsB.map keyTitle) := by rw [heq]
      _ = firstIdx (exactMatch (jsToLowerCase name)) compsB :=
          firstIdx_map (exactMatchKT (jsToLowerCase name)) keyTitle compsB
  have hparEq : firstIdx (partialMatch (jsToLowerCase name)) (compsA.map Prod.snd)
      = firstIdx (partialMatch (jsToLowerCase name)) (compsB.map Prod.snd) := by
    calc firstIdx (partialMatch (jsToLowerCase name)) (compsA.map Prod.snd)
        = firstIdx (fun kc : String × ComponentSummary =>
            partialMatch (jsToLowerCase name) kc.2) compsA :=
          firstIdx_map (partialMatch (jsToLowerCase name)) Prod.snd compsA
      _ = firstIdx (fun kt : String × String => partialMatchT (jsToLowerCase name) kt.2)
            (compsA.map keyTitle) :=
          (firstIdx_map (fun kt : String × String =>
            partialMatchT (jsToLowerCase name) kt.2) keyTitle compsA).symm
      _ = firstIdx (fun kt : String × String => partialMatchT (jsToLowerCase name) kt.2)
            (compsB.map keyTitle) := by rw [heq]
      _ = firstIdx (fun kc : String × ComponentSummary =>
            partialMatch (jsToLowerCase name) kc.2) compsB :=
          firstIdx_map (fun kt : String × String =>
            partialMatchT (jsToLowerCase name) kt.2) keyTitle compsB
      _ = firstIdx (partialMatch (jsToLowerCase name)) (compsB.map Prod.snd) :=
          (firstIdx_map (partialMatch (jsToLowerCase name)) Prod.snd compsB).symm
  refine ⟨?_, findMatchingComponent_eq_resolveIdx dA compsA name hA,
    findMatchingComponent_eq_resolveIdx dB compsB name hB⟩
  rw [resolveIdx, resolveIdx, hexEq, hparEq]

/-- C10 witness: two one-record datasets sharing the key and title but
differing in props, storyCount, stories and paths resolve "button"
identically at position 0. -/
theorem c10_depends_on_keys_titles_witness :
    resolveIdx [("forms-button", buttonComp)] (jsToLowerCase "button")
        = resolveIdx [("forms-button", mkComp "Forms/Button")] (jsToLowerCase "button")
    ∧ findMatchingComponent buttonData "button"
        = (resolveIdx [("forms-button", buttonComp)] (jsToLowerCase "button")).bind
            (fun i => [("forms-button", buttonComp)][i]?.map Prod.snd)
    ∧ findMatchingComponent
          { entries := none, components := some [("forms-button", mkComp "Forms/Button")] }
          "button"
        = (resolveIdx [("forms-button", mkComp "Forms/Button")] (jsToLowerCase "button")).bind
            (fun i => [("forms-button", mkComp "Forms/Button")][i]?.map Prod.snd) :=
  c10_depends_on_keys_titles buttonData
    { entries := none, components := some [("forms-button", mkComp "Forms/Button")] }
    [("forms-button", buttonComp)] [("forms-button", mkComp "Forms/Button")]
    "button" rfl rfl (by decide)

end AlgtoolsMcp
